import Mathlib

/-!
Verification of the relay core of the imagineering-matrix repository.

Python strings are modelled as `List Char`; the functions below are direct
shallow embeddings of the source modules:

* `src/relay/appservice/loop_prevention.py` — identity classifier
* `src/relay/appservice/puppet.py`          — puppet identity manager
* `src/relay/appservice/event_map.py`       — correlation store (SQLite tables
  modelled as in-memory lists with the same uniqueness semantics)
* `src/relay/appservice/handler.py`         — relay engine (network effects
  modelled by oracles, exceptions by an error flag, sends by a trace)
-/

/-- Python `str` is modelled as a list of characters. -/
abbrev Str := List Char

namespace LoopPrevention

/-- `BRIDGE_BOT_LOCALPARTS` from loop_prevention.py. -/
def BRIDGE_BOT_LOCALPARTS : List Str :=
  ["whatsappbot".toList, "discordbot".toList, "telegrambot".toList, "signalbot".toList]

/-- `BRIDGE_PUPPET_PREFIXES` from loop_prevention.py. -/
def BRIDGE_PUPPET_PFXS : List Str :=
  ["_whatsapp_".toList, "_discord_".toList, "_telegram_".toList, "_signal_".toList]

/-- `RELAY_PUPPET_PREFIX` from loop_prevention.py. -/
def RELAY_PUPPET_PFX : Str := "_relay_".toList

/-- Python `user_id.split(":")[0].lstrip("@")`: everything before the first
colon, with all leading `@` removed. -/
def localpart (user_id : Str) : Str :=
  (user_id.takeWhile (fun c => c ≠ ':')).dropWhile (fun c => c = '@')

/-- `is_own_message(sender, bot_mxid)`. -/
def is_own_message (sender bot_mxid : Str) : Bool :=
  sender == bot_mxid

/-- `is_relay_puppet(user_id)`. -/
def is_relay_puppet (user_id : Str) : Bool :=
  RELAY_PUPPET_PFX.isPrefixOf (localpart user_id)

/-- `is_bridge_bot(user_id)`. -/
def is_bridge_bot (user_id : Str) : Bool :=
  BRIDGE_BOT_LOCALPARTS.contains (localpart user_id)

/-- `is_bridge_puppet(user_id)`: bridge bot or any bridge-puppet naming
pattern (`str.startswith` with a tuple of prefixes). -/
def is_bridge_puppet (user_id : Str) : Bool :=
  BRIDGE_BOT_LOCALPARTS.contains (localpart user_id) ||
    BRIDGE_PUPPET_PFXS.any (fun p => p.isPrefixOf (localpart user_id))

/-- Python regex `.`: any character except a newline. -/
def reDot (c : Char) : Bool := c ≠ '\n'

/-- Backtracking `.*` followed by the continuation `p`: true iff some number
of dot-class characters can be consumed so that `p` accepts the remainder. -/
def matchStarThen (p : Str → Bool) : Str → Bool
  | [] => p []
  | c :: rest => p (c :: rest) || (reDot c && matchStarThen p rest)

/-- First alternative of `ATTRIBUTION_RE`: `^\*\*.+\(.*\):\*\*`. -/
def attributionBold (body : Str) : Bool :=
  match body with
  | '*' :: '*' :: rest =>
    match rest with
    | [] => false
    | c :: rest2 =>
      reDot c && matchStarThen (fun r =>
        match r with
        | '(' :: r2 =>
          matchStarThen (fun r3 => [')', ':', '*', '*'].isPrefixOf r3) r2
        | _ => false) rest2
  | _ => false

/-- Regex class `[A-Z]`. -/
def upperAZ (c : Char) : Bool := 'A' ≤ c && c ≤ 'Z'

/-- Regex class `[A-Za-z0-9_ ]`. -/
def wordClass (c : Char) : Bool :=
  ('A' ≤ c && c ≤ 'Z') || ('a' ≤ c && c ≤ 'z') || ('0' ≤ c && c ≤ '9') ||
    c == '_' || c == ' '

/-- Backtracking `[A-Za-z0-9_ ]*` followed by the literal `": "`. -/
def matchClassStarColonSpace : Str → Bool
  | [] => false
  | c :: rest =>
    [':', ' '].isPrefixOf (c :: rest) || (wordClass c && matchClassStarColonSpace rest)

/-- Second alternative of `ATTRIBUTION_RE`: `^[A-Z][A-Za-z0-9_ ]+: `. -/
def attributionPlain (body : Str) : Bool :=
  match body with
  | [] => false
  | c :: rest =>
    upperAZ c &&
      (match rest with
       | [] => false
       | d :: rest2 => wordClass d && matchClassStarColonSpace rest2)

/-- `has_attribution(body)`: `ATTRIBUTION_RE.match(body)` is truthy. -/
def has_attribution (body : Str) : Bool :=
  attributionBold body || attributionPlain body

/-- `platform_label(user_id)` from loop_prevention.py. -/
def platform_label (user_id : Str) : Str :=
  let lp := localpart user_id
  if ("_discord_".toList).isPrefixOf lp then "Discord".toList
  else if ("_telegram_".toList).isPrefixOf lp then "Telegram".toList
  else if ("_signal_".toList).isPrefixOf lp then "Signal".toList
  else if ("_whatsapp_".toList).isPrefixOf lp then "WhatsApp".toList
  else "Matrix".toList

/-- `should_ignore_in_portal(sender, body, bot_mxid)`. -/
def should_ignore_in_portal (sender body bot_mxid : Str) : Bool :=
  if is_own_message sender bot_mxid then true
  else if is_relay_puppet sender then true
  else if is_bridge_bot sender then true
  else if has_attribution body then true
  else false

/-- `should_ignore_in_hub(sender, body, bot_mxid)`. -/
def should_ignore_in_hub (sender body bot_mxid : Str) : Bool :=
  if is_own_message sender bot_mxid then true
  else if is_relay_puppet sender then true
  else if is_bridge_puppet sender then true
  else if has_attribution body then true
  else false

end LoopPrevention

namespace Sha256

/-- UTF-8 encoding of one character (`str.encode()` in Python). -/
def utf8Bytes (c : Char) : List Nat :=
  let n := c.toNat
  if n < 0x80 then [n]
  else if n < 0x800 then [0xC0 ||| (n >>> 6), 0x80 ||| (n &&& 0x3F)]
  else if n < 0x10000 then
    [0xE0 ||| (n >>> 12), 0x80 ||| ((n >>> 6) &&& 0x3F), 0x80 ||| (n &&& 0x3F)]
  else
    [0xF0 ||| (n >>> 18), 0x80 ||| ((n >>> 12) &&& 0x3F),
     0x80 ||| ((n >>> 6) &&& 0x3F), 0x80 ||| (n &&& 0x3F)]

def rotr (n x : Nat) : Nat := ((x >>> n) ||| (x <<< (32 - n))) &&& 0xFFFFFFFF

def sSig0 (x : Nat) : Nat := (rotr 7 x) ^^^ (rotr 18 x) ^^^ (x >>> 3)
def sSig1 (x : Nat) : Nat := (rotr 17 x) ^^^ (rotr 19 x) ^^^ (x >>> 10)
def bSig0 (x : Nat) : Nat := (rotr 2 x) ^^^ (rotr 13 x) ^^^ (rotr 22 x)
def bSig1 (x : Nat) : Nat := (rotr 6 x) ^^^ (rotr 11 x) ^^^ (rotr 25 x)

def KS : List Nat :=
  [1116352408, 1899447441, 3049323471, 3921009573,
   961987163, 1508970993, 2453635748, 2870763221,
   3624381080, 310598401, 607225278, 1426881987,
   1925078388, 2162078206, 2614888103, 3248222580,
   3835390401, 4022224774, 264347078, 604807628,
   770255983, 1249150122, 1555081692, 1996064986,
   2554220882, 2821834349, 2952996808, 3210313671,
   3336571891, 3584528711, 113926993, 338241895,
   666307205, 773529912, 1294757372, 1396182291,
   1695183700, 1986661051, 2177026350, 2456956037,
   2730485921, 2820302411, 3259730800, 3345764771,
   3516065817, 3600352804, 4094571909, 275423344,
   430227734, 506948616, 659060556, 883997877,
   958139571, 1322822218, 1537002063, 1747873779,
   1955562222, 2024104815, 2227730452, 2361852424,
   2428436474, 2756734187, 3204031479, 3329325298]

def H0 : List Nat :=
  [1779033703, 3144134277, 1013904242, 2773480762,
   1359893119, 2600822924, 528734635, 1541459225]

def chunks64Go : Nat → List Nat → List (List Nat)
  | 0, _ => []
  | _, [] => []
  | fuel + 1, a :: rest => ((a :: rest).take 64) :: chunks64Go fuel ((a :: rest).drop 64)

def chunks64 (l : List Nat) : List (List Nat) := chunks64Go l.length l

def toWords : List Nat → List Nat
  | b0 :: b1 :: b2 :: b3 :: rest =>
    ((((b0 <<< 8) ||| b1) <<< 8 ||| b2) <<< 8 ||| b3) :: toWords rest
  | _ => []

def extendWords : Nat → List Nat → List Nat
  | 0, w => w
  | k+1, w =>
    let i := w.length
    let nw := (sSig1 (w.getD (i-2) 0) + w.getD (i-7) 0 +
               sSig0 (w.getD (i-15) 0) + w.getD (i-16) 0) &&& 0xFFFFFFFF
    extendWords k (w ++ [nw])

def processBlock (h : List Nat) (block : List Nat) : List Nat :=
  let w := extendWords 48 (toWords block)
  let m := 0xFFFFFFFF
  let st := (KS.zip w).foldl
    (fun (s : Nat × Nat × Nat × Nat × Nat × Nat × Nat × Nat) kw =>
      let (a, b, c, d, e, f, g, hh) := s
      let (k, wt) := kw
      let ch := g ^^^ (e &&& (f ^^^ g))
      let maj := (a &&& b) ^^^ ((a ^^^ b) &&& c)
      let t1 := (hh + bSig1 e + ch + k + wt) &&& m
      let t2 := (bSig0 a + maj) &&& m
      ((t1 + t2) &&& m, a, b, c, (d + t1) &&& m, e, f, g))
    (h.getD 0 0, h.getD 1 0, h.getD 2 0, h.getD 3 0,
     h.getD 4 0, h.getD 5 0, h.getD 6 0, h.getD 7 0)
  let (a, b, c, d, e, f, g, hh) := st
  [(h.getD 0 0 + a) &&& m, (h.getD 1 0 + b) &&& m, (h.getD 2 0 + c) &&& m,
   (h.getD 3 0 + d) &&& m, (h.getD 4 0 + e) &&& m, (h.getD 5 0 + f) &&& m,
   (h.getD 6 0 + g) &&& m, (h.getD 7 0 + hh) &&& m]

def padMessage (msg : List Nat) : List Nat :=
  let L := msg.length
  let bitLen := L * 8
  let padZeros := (119 - (L % 64)) % 64
  msg ++ [0x80] ++ List.replicate padZeros 0 ++
    [(bitLen >>> 56) &&& 0xFF, (bitLen >>> 48) &&& 0xFF, (bitLen >>> 40) &&& 0xFF,
     (bitLen >>> 32) &&& 0xFF, (bitLen >>> 24) &&& 0xFF, (bitLen >>> 16) &&& 0xFF,
     (bitLen >>> 8) &&& 0xFF, bitLen &&& 0xFF]

def sha256Bytes (msg : List Nat) : List Nat :=
  ((chunks64 (padMessage msg)).foldl processBlock H0).flatMap
    (fun x => [(x >>> 24) &&& 0xFF, (x >>> 16) &&& 0xFF, (x >>> 8) &&& 0xFF, x &&& 0xFF])

def hexDigit (n : Nat) : Char :=
  Char.ofNat (if n ≤ 9 then 48 + n else 87 + n)

def hexdigest (bytes : List Nat) : List Char :=
  bytes.flatMap (fun b => [hexDigit (b >>> 4), hexDigit (b &&& 0xF)])

end Sha256

namespace Puppet

/-- `PuppetManager.mxid_for(platform, sender)` from puppet.py:
`@_relay_{platform}_{hash8}:{domain}` where `hash8` is the first 8 hex
characters of `sha256(f"{platform}:{sender}")`. -/
def mxid_for (domain platform sender : Str) : Str :=
  let raw := platform ++ ":".toList ++ sender
  let hash8 :=
    (Sha256.hexdigest (Sha256.sha256Bytes (raw.flatMap Sha256.utf8Bytes))).take 8
  "@_relay_".toList ++ platform ++ "_".toList ++ hash8 ++ ":".toList ++ domain

end Puppet

/-- One row of the `event_group_events` table. -/
structure EventRow where
  gid : Nat
  room : String
  event : String
  ts : Int
deriving DecidableEq, Repr

/-- The correlation store: the `event_groups` and `event_group_events`
tables (rows in insertion order, which models the SQLite scan order) and a
counter supplying fresh group identifiers (`uuid.uuid4().hex`). -/
structure EMState where
  groups : List (Nat × Int)
  rows : List EventRow
  nextGid : Nat
deriving DecidableEq, Repr

namespace EventMap

/-- `_upsert_event`: `INSERT OR REPLACE` deletes every row conflicting on the
`(group_id, room_id)` primary key or the `UNIQUE (event_id)` constraint, then
inserts the new row. -/
def upsertEvent (s : EMState) (gid : Nat) (room event : String) (ts : Int) : EMState :=
  { s with rows :=
      s.rows.filter (fun r => !((r.gid == gid && r.room == room) || r.event == event))
        ++ [⟨gid, room, event, ts⟩] }

/-- Stable dedupe (`list(dict.fromkeys(...))`): keep the first occurrence. -/
def dedupFirstGo : List Nat → List Nat → List Nat
  | [], _ => []
  | a :: rest, seen =>
    if seen.contains a then dedupFirstGo rest seen
    else a :: dedupFirstGo rest (a :: seen)

/-- Stable dedupe of the group-id list. -/
def dedupFirst (l : List Nat) : List Nat := dedupFirstGo l []

/-- One iteration of `_merge_groups`: absorb group `g` into `target`.  The
rows of `g` are fetched first; each is copied unless the target already has
that room, via `INSERT OR IGNORE` — which also skips the copy when any other
row still holds the same `event_id` (the `UNIQUE (event_id)` constraint);
afterwards all rows of `g` and the group itself are deleted. -/
def mergeOne (s : EMState) (target g : Nat) : EMState :=
  let gRows := s.rows.filter (fun r => r.gid == g)
  let s1 := gRows.foldl (fun (acc : EMState) row =>
    if acc.rows.any (fun r => r.gid == target && r.room == row.room) then acc
    else if acc.rows.any (fun r =>
        (r.gid == target && r.room == row.room) || r.event == row.event) then acc
    else { acc with rows := acc.rows ++ [⟨target, row.room, row.event, row.ts⟩] }) s
  { s1 with
      rows := s1.rows.filter (fun r => !(r.gid == g)),
      groups := s1.groups.filter (fun p => !(p.1 == g)) }

/-- `_merge_groups(target_group, other_groups)`. -/
def mergeGroups (s : EMState) (target : Nat) (others : List Nat) : EMState :=
  others.foldl (fun acc g => mergeOne acc target g) s

/-- `_ensure_group(source_event_id, target_event_id, created_at)`. -/
def ensureGroup (s : EMState) (sourceEvt targetEvt : String) (ts : Int) :
    Nat × EMState :=
  let gids := dedupFirst
    ((s.rows.filter (fun r => r.event == sourceEvt || r.event == targetEvt)).map
      (fun r => r.gid))
  match gids with
  | [] =>
    (s.nextGid,
     { s with groups := s.groups ++ [(s.nextGid, ts)], nextGid := s.nextGid + 1 })
  | g :: rest =>
    match rest with
    | [] => (g, s)
    | _ :: _ => (g, mergeGroups s g rest)

/-- `store(source_event_id, source_room_id, target_event_id, target_room_id,
created_at=None)`.  `now` models `time.time()`; `created_at or time.time()`
falls back on a falsy (`None` or `0`) argument. -/
def store (s : EMState) (sourceEvt sourceRoom targetEvt targetRoom : String)
    (createdAt : Option Int) (now : Int) : EMState :=
  let ts := match createdAt with
    | none => now
    | some c => if c == 0 then now else c
  let p := ensureGroup s sourceEvt targetEvt ts
  upsertEvent (upsertEvent p.2 p.1 sourceRoom sourceEvt ts) p.1 targetRoom targetEvt ts

/-- `lookup(source_event_id, target_room_id)`. -/
def lookup (s : EMState) (evt room : String) : Option String :=
  match s.rows.find? (fun r => r.event == evt) with
  | none => none
  | some r =>
    match s.rows.find? (fun r2 => r2.gid == r.gid && r2.room == room) with
    | none => none
    | some r2 => some r2.event

/-- `cleanup(max_age_days)`: delete members older than the cutoff, then
groups with no members left; return the number of member rows removed. -/
def cleanup (s : EMState) (now : Int) (maxAgeDays : Int) : Nat × EMState :=
  let cutoff := now - maxAgeDays * 86400
  let removed := (s.rows.filter (fun r => decide (r.ts < cutoff))).length
  let kept := s.rows.filter (fun r => !decide (r.ts < cutoff))
  (removed,
   { s with rows := kept,
            groups := s.groups.filter (fun p => kept.any (fun r => r.gid == p.1)) })

/-- The empty store, as created by `open()` on a fresh database. -/
def emptyEM : EMState := ⟨[], [], 0⟩

end EventMap

/-- Store well-formedness: the two SQLite uniqueness constraints of
`event_group_events` — `UNIQUE (event_id)` and the `(group_id, room_id)`
primary key. -/
def wfEM (s : EMState) : Prop :=
  (s.rows.map (fun r => r.event)).Nodup ∧
    (s.rows.map (fun r => (r.gid, r.room))).Nodup

/-- Store state after linking two pre-existing event groups through a shared
pair of event ids: `store(a,r1,b,r2); store(c,r3,d,r4); store(b,r2,c,r3)`.
The third call discovers the groups of `b` and `c` and merges them. -/
def mergeScenario : EMState :=
  EventMap.store (EventMap.store (EventMap.store EventMap.emptyEM
    "a" "r1" "b" "r2" none 10) "c" "r3" "d" "r4" none 20) "b" "r2" "c" "r3" none 30

/-- Store state with one old member (`a`, timestamp 1) and two younger
members (`b`, `c`, timestamp 1000000) in one group. -/
def mixedAgeScenario : EMState :=
  EventMap.store (EventMap.store EventMap.emptyEM "a" "r1" "b" "r2" (some 1) 0)
    "b" "r2" "c" "r3" (some 1000000) 0

namespace Handler

/-- Relay configuration (constructor arguments of `RelayHandler` plus the
puppet manager's homeserver domain). -/
structure Config where
  portalRooms : List (String × Str)
  hubRoomId : String
  botMxid : Str
  domain : Str

/-- External collaborators, modelled as oracles: profile lookup (`none`
models a raised exception), the per-room outcome of a network send (`none`
models a raised exception, `some eid` the returned event id), whether
`EventMap.store` succeeds for a given target room, and `time.time()`. -/
structure Oracles where
  profile : Str → Option (Str × Option Str)
  sendOk : String → Option String
  storeOk : String → Bool
  now : Int

/-- Mutable caches of `PuppetManager`. -/
structure PMState where
  intents : List Str
  displayNames : List (Str × Str)
  avatarUrls : List (Str × Option Str)
  memberProfiles : List ((Str × String) × (Str × Option Str))
deriving DecidableEq

/-- Homeserver-facing operations issued by `PuppetManager.get_intent`. -/
inductive PuppetAction where
  | ensureRegistered (mxid : Str)
  | setDisplayname (mxid name : Str)
  | setAvatar (mxid : Str) (url : Str)
  | sendMemberEvent (mxid : Str) (room : String) (name : Str) (avatar : Option Str)
  | ensureJoined (mxid : Str) (room : String)
deriving DecidableEq

/-- Python dict assignment on an association list: replace in place or append. -/
def setAssoc {α β : Type} [BEq α] : List (α × β) → α → β → List (α × β)
  | [], k, v => [(k, v)]
  | (a, b) :: rest, k, v =>
    if a == k then (k, v) :: rest else (a, b) :: setAssoc rest k v

/-- `PuppetManager.get_intent(...)`: returns the homeserver operations issued
and the updated caches.  `syncMemberState` defaults to `False` exactly as in
the source. -/
def getIntent (domain : Str) (pm : PMState) (platform sender displayName : Str)
    (avatarUrl : Option Str) (roomId : String) (syncMemberState : Bool := false) :
    List PuppetAction × PMState :=
  let mxid := Puppet.mxid_for domain platform sender
  let reg :=
    if pm.intents.contains mxid then
      let actsDn : List PuppetAction × PMState :=
        if List.lookup mxid pm.displayNames != some displayName then
          ([PuppetAction.setDisplayname mxid displayName],
           { pm with displayNames := setAssoc pm.displayNames mxid displayName })
        else ([], pm)
      let pmA := actsDn.2
      if List.lookup mxid pmA.avatarUrls != some avatarUrl then
        (actsDn.1 ++ [PuppetAction.setAvatar mxid (avatarUrl.getD [])],
         { pmA with avatarUrls := setAssoc pmA.avatarUrls mxid avatarUrl })
      else actsDn
    else
      ([PuppetAction.ensureRegistered mxid,
        PuppetAction.setDisplayname mxid displayName] ++
         (match avatarUrl with
          | some u => [PuppetAction.setAvatar mxid u]
          | none => []),
       { pm with intents := pm.intents ++ [mxid],
                 displayNames := setAssoc pm.displayNames mxid displayName,
                 avatarUrls := setAssoc pm.avatarUrls mxid avatarUrl })
  let pm1 := reg.2
  let currentProfile := (displayName, avatarUrl)
  match List.lookup (mxid, roomId) pm1.memberProfiles with
  | none =>
    (reg.1 ++ [PuppetAction.sendMemberEvent mxid roomId displayName avatarUrl],
     { pm1 with memberProfiles := setAssoc pm1.memberProfiles (mxid, roomId) currentProfile })
  | some cached =>
    if cached ≠ currentProfile ∧ syncMemberState then
      (reg.1 ++ [PuppetAction.sendMemberEvent mxid roomId displayName avatarUrl],
       { pm1 with memberProfiles := setAssoc pm1.memberProfiles (mxid, roomId) currentProfile })
    else
      (reg.1 ++ [PuppetAction.ensureJoined mxid roomId], pm1)

/-- One observable step of the relay engine. -/
inductive TraceItem where
  | intentCall (room : String) (syncMemberState : Bool)
  | puppetAct (a : PuppetAction)
  | sentText (room : String) (eid : String)
  | sentReply (room : String) (replyTo : String) (eid : String)
  | sendFailed (room : String)
  | stored (sourceEvt : String) (sourceRoom : String) (targetEvt : String)
      (targetRoom : String)
  | reacted (room : String) (target : String)
  | reactFailed (room : String)
deriving DecidableEq

/-- A mautrix text message event, after `_get_reply_to` extraction. -/
structure MessageEvent where
  sender : Str
  roomId : String
  eventId : String
  body : Str
  replyTo : Option String

/-- A mautrix reaction event. -/
structure ReactionEvent where
  sender : Str
  roomId : String
  eventId : String
  relatesToEventId : String
  relatesToKey : Str

/-- Result of a relay call: observable steps, updated puppet caches, updated
correlation store, and whether an exception propagated to the caller. -/
structure RelayOut where
  trace : List TraceItem
  pm : PMState
  em : Option EMState
  err : Bool

/-- `RelayHandler._get_sender_profile`: falls back to the sender's localpart
and no avatar when the lookup raises or the display name is falsy. -/
def getSenderProfile (o : Oracles) (sender : Str) : Str × Option Str :=
  match o.profile sender with
  | some (dn, av) =>
    if dn ≠ [] then (dn, av) else (LoopPrevention.localpart sender, none)
  | none => (LoopPrevention.localpart sender, none)

/-- Python `str.lower()` (ASCII labels only in this code base). -/
def lowerStr (s : Str) : Str := s.map Char.toLower

/-- `RelayHandler._send_as_puppet`: everything inside its `try` block —
puppet acquisition, optional correlation lookup, then the send, whose
outcome the `sendOk` oracle decides; an exception is caught and yields
`None`.  Returns the event id (or `none`), updated caches, and the steps. -/
def sendAsPuppet (cfg : Config) (o : Oracles) (pm : PMState) (em : Option EMState)
    (platform sender displayName : Str) (avatarUrl : Option Str) (roomId : String)
    (replyToSource : Option String) (targetRoomId : Option String) :
    Option String × PMState × List TraceItem :=
  let gi := getIntent cfg.domain pm platform sender displayName avatarUrl roomId
  let mappedReplyTo : Option String :=
    match replyToSource, em, targetRoomId with
    | some rts, some m, some tr => EventMap.lookup m rts tr
    | _, _, _ => none
  let pre := TraceItem.intentCall roomId false :: gi.1.map TraceItem.puppetAct
  match o.sendOk roomId with
  | none => (none, gi.2, pre ++ [TraceItem.sendFailed roomId])
  | some eid =>
    match mappedReplyTo with
    | some m => (some eid, gi.2, pre ++ [TraceItem.sentReply roomId m eid])
    | none => (some eid, gi.2, pre ++ [TraceItem.sentText roomId eid])

/-- The `for portal_id in self._portal_rooms` loop of `_relay_from_portal`:
skip the source portal, send, and on success store the correlation — the
`store` call is not guarded by any `try`, so its failure propagates and
aborts the remaining iterations. -/
def relayPortalLoop (cfg : Config) (o : Oracles) (platform sender displayName : Str)
    (avatarUrl : Option Str) (replyTo : Option String)
    (sourceEventId sourceRoom : String) :
    List (String × Str) → PMState → Option EMState → RelayOut
  | [], pm, em => ⟨[], pm, em, false⟩
  | (portalId, _) :: rest, pm, em =>
    if portalId == sourceRoom then
      relayPortalLoop cfg o platform sender displayName avatarUrl replyTo
        sourceEventId sourceRoom rest pm em
    else
      let r := sendAsPuppet cfg o pm em platform sender displayName avatarUrl
        portalId replyTo (some portalId)
      match r.1, em with
      | some evt, some m =>
        if o.storeOk portalId then
          let m1 := EventMap.store m sourceEventId sourceRoom evt portalId none o.now
          let k := relayPortalLoop cfg o platform sender displayName avatarUrl replyTo
            sourceEventId sourceRoom rest r.2.1 (some m1)
          ⟨r.2.2 ++ [TraceItem.stored sourceEventId sourceRoom evt portalId] ++ k.trace,
           k.pm, k.em, k.err⟩
        else ⟨r.2.2, r.2.1, some m, true⟩
      | _, _ =>
        let k := relayPortalLoop cfg o platform sender displayName avatarUrl replyTo
          sourceEventId sourceRoom rest r.2.1 em
        ⟨r.2.2 ++ k.trace, k.pm, k.em, k.err⟩

/-- `RelayHandler._relay_from_portal`. -/
def relayFromPortal (cfg : Config) (o : Oracles) (pm : PMState) (em : Option EMState)
    (ev : MessageEvent) : RelayOut :=
  let prof := getSenderProfile o ev.sender
  let sourceLabel := (List.lookup ev.roomId cfg.portalRooms).getD []
  let platform := lowerStr sourceLabel
  let r := sendAsPuppet cfg o pm em platform ev.sender prof.1 prof.2 cfg.hubRoomId
    ev.replyTo (some cfg.hubRoomId)
  match r.1, em with
  | some evt, some m =>
    if o.storeOk cfg.hubRoomId then
      let m1 := EventMap.store m ev.eventId ev.roomId evt cfg.hubRoomId none o.now
      let k := relayPortalLoop cfg o platform ev.sender prof.1 prof.2 ev.replyTo
        ev.eventId ev.roomId cfg.portalRooms r.2.1 (some m1)
      ⟨r.2.2 ++ [TraceItem.stored ev.eventId ev.roomId evt cfg.hubRoomId] ++ k.trace,
       k.pm, k.em, k.err⟩
    else ⟨r.2.2, r.2.1, some m, true⟩
  | _, _ =>
    let k := relayPortalLoop cfg o platform ev.sender prof.1 prof.2 ev.replyTo
      ev.eventId ev.roomId cfg.portalRooms r.2.1 em
    ⟨r.2.2 ++ k.trace, k.pm, k.em, k.err⟩

/-- The `for portal_id in self._portal_rooms` loop of `_relay_from_hub`
(no source-room skip; the hub is not a portal key when this runs). -/
def relayHubLoop (cfg : Config) (o : Oracles) (platform sender displayName : Str)
    (avatarUrl : Option Str) (replyTo : Option String)
    (sourceEventId sourceRoom : String) :
    List (String × Str) → PMState → Option EMState → RelayOut
  | [], pm, em => ⟨[], pm, em, false⟩
  | (portalId, _) :: rest, pm, em =>
    let r := sendAsPuppet cfg o pm em platform sender displayName avatarUrl
      portalId replyTo (some portalId)
    match r.1, em with
    | some evt, some m =>
      if o.storeOk portalId then
        let m1 := EventMap.store m sourceEventId sourceRoom evt portalId none o.now
        let k := relayHubLoop cfg o platform sender displayName avatarUrl replyTo
          sourceEventId sourceRoom rest r.2.1 (some m1)
        ⟨r.2.2 ++ [TraceItem.stored sourceEventId sourceRoom evt portalId] ++ k.trace,
         k.pm, k.em, k.err⟩
      else ⟨r.2.2, r.2.1, some m, true⟩
    | _, _ =>
      let k := relayHubLoop cfg o platform sender displayName avatarUrl replyTo
        sourceEventId sourceRoom rest r.2.1 em
      ⟨r.2.2 ++ k.trace, k.pm, k.em, k.err⟩

/-- `RelayHandler._relay_from_hub`. -/
def relayFromHub (cfg : Config) (o : Oracles) (pm : PMState) (em : Option EMState)
    (ev : MessageEvent) : RelayOut :=
  let prof := getSenderProfile o ev.sender
  let platform := lowerStr (LoopPrevention.platform_label ev.sender)
  relayHubLoop cfg o platform ev.sender prof.1 prof.2 ev.replyTo
    ev.eventId ev.roomId cfg.portalRooms pm em

/-- `RelayHandler.handle_message`. -/
def handle_message (cfg : Config) (o : Oracles) (pm : PMState) (em : Option EMState)
    (ev : MessageEvent) : RelayOut :=
  if (cfg.portalRooms.map (fun p => p.1)).contains ev.roomId then
    if LoopPrevention.should_ignore_in_portal ev.sender ev.body cfg.botMxid then
      ⟨[], pm, em, false⟩
    else relayFromPortal cfg o pm em ev
  else if ev.roomId == cfg.hubRoomId then
    if LoopPrevention.should_ignore_in_hub ev.sender ev.body cfg.botMxid then
      ⟨[], pm, em, false⟩
    else relayFromHub cfg o pm em ev
  else ⟨[], pm, em, false⟩

/-- The per-target loop of `handle_reaction`: a missing correlation skips the
target silently; puppet acquisition and the `react` call sit inside `try`,
so a failure (the `sendOk` oracle) is logged and the loop continues. -/
def reactLoop (cfg : Config) (o : Oracles) (m : EMState)
    (platform sender displayName : Str) (avatarUrl : Option Str)
    (reactedTo : String) : List String → PMState → List TraceItem × PMState
  | [], pm => ([], pm)
  | t :: rest, pm =>
    match EventMap.lookup m reactedTo t with
    | none => reactLoop cfg o m platform sender displayName avatarUrl reactedTo rest pm
    | some mapped =>
      let gi := getIntent cfg.domain pm platform sender displayName avatarUrl t
      let pre := TraceItem.intentCall t false :: gi.1.map TraceItem.puppetAct
      let k := reactLoop cfg o m platform sender displayName avatarUrl reactedTo rest gi.2
      if (o.sendOk t).isSome then
        (pre ++ [TraceItem.reacted t mapped] ++ k.1, k.2)
      else
        (pre ++ [TraceItem.reactFailed t] ++ k.1, k.2)

/-- `RelayHandler.handle_reaction`. -/
def handle_reaction (cfg : Config) (o : Oracles) (pm : PMState) (em : Option EMState)
    (ev : ReactionEvent) : List TraceItem × PMState :=
  match em with
  | none => ([], pm)
  | some m =>
    if (cfg.portalRooms.map (fun p => p.1)).contains ev.roomId then
      if LoopPrevention.should_ignore_in_portal ev.sender [] cfg.botMxid then ([], pm)
      else
        let prof := getSenderProfile o ev.sender
        let sourceLabel := (List.lookup ev.roomId cfg.portalRooms).getD []
        let platform := lowerStr sourceLabel
        let targets := cfg.hubRoomId ::
          (cfg.portalRooms.map (fun p => p.1)).filter (fun p => !(p == ev.roomId))
        reactLoop cfg o m platform ev.sender prof.1 prof.2 ev.relatesToEventId targets pm
    else if ev.roomId == cfg.hubRoomId then
      if LoopPrevention.should_ignore_in_hub ev.sender [] cfg.botMxid then ([], pm)
      else
        let prof := getSenderProfile o ev.sender
        let platform := lowerStr (LoopPrevention.platform_label ev.sender)
        let targets := cfg.portalRooms.map (fun p => p.1)
        reactLoop cfg o m platform ev.sender prof.1 prof.2 ev.relatesToEventId targets pm
    else ([], pm)

/-- Rooms that actually received a copy of the message (successful sends). -/
def sentRooms (tr : List TraceItem) : List String :=
  tr.filterMap (fun t =>
    match t with
    | TraceItem.sentText r _ => some r
    | TraceItem.sentReply r _ _ => some r
    | _ => none)

/-- Rooms that actually received a relayed reaction. -/
def reactedRooms (tr : List TraceItem) : List String :=
  tr.filterMap (fun t =>
    match t with
    | TraceItem.reacted r _ => some r
    | _ => none)

end Handler

namespace Scenario

open Handler

/-- Three-portal configuration mirroring the multi-portal tests: WhatsApp,
Signal and Telegram portals plus one hub room. -/
def relayConfig : Config :=
  { portalRooms := [("!wa", "WhatsApp".toList), ("!sig", "Signal".toList),
      ("!tel", "Telegram".toList)],
    hubRoomId := "!hub", botMxid := "@relay-bot:ex".toList, domain := "ex".toList }

/-- Oracles where every network call succeeds. -/
def sendAllOk : Oracles :=
  { profile := fun _ => none, sendOk := fun _ => some "$out",
    storeOk := fun _ => true, now := 0 }

/-- Oracles where the send to the WhatsApp portal raises and the rest succeed. -/
def sendWaFails : Oracles :=
  { sendAllOk with sendOk := fun r => if r == "!wa" then none else some "$out" }

/-- Oracles where `EventMap.store` raises for the hub target. -/
def storeHubFails : Oracles :=
  { sendAllOk with storeOk := fun r => !(r == "!hub") }

/-- A message from a Signal bridge puppet in the Signal portal. -/
def signalEvent : MessageEvent :=
  { sender := "@_signal_abc:ex".toList, roomId := "!sig", eventId := "$e1",
    body := "hi".toList, replyTo := none }

/-- The empty puppet-manager cache. -/
def pmEmpty : PMState := ⟨[], [], [], []⟩

/-- The deterministic puppet mxid of the Signal sender. -/
def signalPuppetMxid : Str :=
  Puppet.mxid_for "ex".toList "signal".toList "@_signal_abc:ex".toList

/-- Puppet caches where the Signal puppet is already registered and already a
member of the hub room, but with a stale member profile `("Old", no avatar)`. -/
def stalePuppetState : PMState :=
  { intents := [signalPuppetMxid],
    displayNames := [(signalPuppetMxid, "Old".toList)],
    avatarUrls := [(signalPuppetMxid, none)],
    memberProfiles := [((signalPuppetMxid, "!hub"), ("Old".toList, none))] }

/-- Oracles whose profile lookup reports the sender's new display name. -/
def newNameOracles : Oracles :=
  { sendAllOk with profile := fun s =>
      if s == "@_signal_abc:ex".toList then some ("New".toList, none) else none }

end Scenario

namespace Scenario

open Handler

/-- A reaction from a WhatsApp bridge puppet in the WhatsApp portal. -/
def whatsappReaction : ReactionEvent :=
  { sender := "@_whatsapp_1:ex".toList, roomId := "!wa", eventId := "$r1",
    relatesToEventId := "$wa_msg", relatesToKey := "x".toList }

/-- True unless the step re-issues a member state event in the hub room. -/
def noHubMemberEvent (t : TraceItem) : Bool :=
  match t with
  | TraceItem.puppetAct (PuppetAction.sendMemberEvent _ r _ _) => !(r == "!hub")
  | _ => true

/-- The steps of relaying `signalEvent` while the Signal puppet's hub member
profile is stale (`"Old"`) and the profile lookup now reports `"New"`. -/
def staleHubTrace : List TraceItem :=
  (handle_message relayConfig newNameOracles stalePuppetState
    (some EventMap.emptyEM) signalEvent).trace

end Scenario

-- ===================== Theorems =====================

open LoopPrevention in
/-- C1: a sender whose localpart carries a configured bridge-puppet naming
pattern, that is not a bridge automation account, not the bot itself and not a
relay puppet, with a body free of relay attribution, is relayed in a portal
room (`should_ignore_in_portal` is false) but filtered in the hub room
(`should_ignore_in_hub` is true). -/
theorem bridge_puppet_portal_hub_asymmetry
    (sender body bot_mxid : Str)
    (hpfx : ∃ p ∈ BRIDGE_PUPPET_PFXS, p.isPrefixOf (localpart sender) = true)
    (hbot : is_bridge_bot sender = false)
    (hown : sender ≠ bot_mxid)
    (hrelay : is_relay_puppet sender = false)
    (hattr : has_attribution body = false) :
    should_ignore_in_portal sender body bot_mxid = false ∧
      should_ignore_in_hub sender body bot_mxid = true := by
  obtain ⟨p, hp, hpref⟩ := hpfx
  constructor
  · simp [should_ignore_in_portal, is_own_message, hbot, hrelay, hattr, hown]
  · have hbp : is_bridge_puppet sender = true := by
      have hcont : BRIDGE_BOT_LOCALPARTS.contains (localpart sender) = false := hbot
      simp only [is_bridge_puppet, hcont, Bool.false_or, List.any_eq_true]
      exact ⟨p, hp, hpref⟩
    simp [should_ignore_in_hub, is_own_message, hrelay, hown, hbp]

open LoopPrevention in
/-- Witness for C1 at a concrete WhatsApp bridge puppet. -/
theorem bridge_puppet_portal_hub_asymmetry_witness :
    should_ignore_in_portal "@_whatsapp_12345:example.com".toList "hello".toList
        "@relay-bot:example.com".toList = false ∧
      should_ignore_in_hub "@_whatsapp_12345:example.com".toList "hello".toList
        "@relay-bot:example.com".toList = true :=
  bridge_puppet_portal_hub_asymmetry _ _ _
    (by decide) (by decide) (by decide) (by decide) (by decide)

open LoopPrevention Puppet in
/-- C10: every puppet identifier produced by `PuppetManager.mxid_for` has a
localpart starting with the relay puppet naming pattern `_relay_`, so
`is_relay_puppet` is true for it and both ignore predicates return true for
any body and any bot identifier — the relay never re-relays its own puppet
traffic. -/
theorem relay_puppet_traffic_always_ignored
    (domain platform sender body bot_mxid : Str) :
    RELAY_PUPPET_PFX.isPrefixOf (localpart (mxid_for domain platform sender)) = true ∧
      is_relay_puppet (mxid_for domain platform sender) = true ∧
      should_ignore_in_portal (mxid_for domain platform sender) body bot_mxid = true ∧
      should_ignore_in_hub (mxid_for domain platform sender) body bot_mxid = true := by
  have hpref :
      RELAY_PUPPET_PFX.isPrefixOf (localpart (mxid_for domain platform sender)) = true := by
    simp +decide [mxid_for, localpart, RELAY_PUPPET_PFX, List.takeWhile_cons,
      List.dropWhile_cons, List.isPrefixOf]
  have hrelay : is_relay_puppet (mxid_for domain platform sender) = true := hpref
  refine ⟨hpref, hrelay, ?_, ?_⟩
  · unfold should_ignore_in_portal
    cases h : is_own_message (mxid_for domain platform sender) bot_mxid <;>
      simp [hrelay]
  · unfold should_ignore_in_hub
    cases h : is_own_message (mxid_for domain platform sender) bot_mxid <;>
      simp [hrelay]

/-- A `find?` hit is stable under `filter` when the hit survives the filter
and is the only element of the list satisfying the search predicate. -/
theorem find?_filter_stable {α : Type} (p q : α → Bool) (l : List α) (x : α)
    (h : l.find? p = some x) (hq : q x = true)
    (uniq : ∀ y ∈ l, p y = true → y = x) :
    (l.filter q).find? p = some x := by
  induction l with
  | nil => simp at h
  | cons a lt ih =>
    by_cases hpa : p a = true
    · rw [List.find?_cons_of_pos _ hpa] at h
      have hax : a = x := by injection h
      subst hax
      rw [List.filter_cons_of_pos hq, List.find?_cons_of_pos _ hpa]
    · have hpa' : ¬ p a = true := hpa
      rw [List.find?_cons_of_neg _ (by simpa using hpa')] at h
      have ih' := ih h (fun y hy hpy => uniq y (List.mem_cons_of_mem _ hy) hpy)
      by_cases hqa : q a = true
      · rw [List.filter_cons_of_pos hqa, List.find?_cons_of_neg _ (by simpa using hpa')]
        exact ih'
      · rw [List.filter_cons_of_neg (by simpa using hqa)]
        exact ih'

open EventMap in
/-- C3: from an empty store, `store(a, room1, b, room2)` followed by
`lookup(a, room2)` returns `b` and `lookup(b, room1)` returns `a` — lookup is
direction-independent. -/
theorem store_lookup_direction_independent
    (a b room1 room2 : String) (now : Int)
    (hab : a ≠ b) (hroom : room1 ≠ room2) :
    lookup (store emptyEM a room1 b room2 none now) a room2 = some b ∧
      lookup (store emptyEM a room1 b room2 none now) b room1 = some a := by
  have h1 : (a == b) = false := by simp [hab]
  have h2 : (b == a) = false := by simp [Ne.symm hab]
  have h3 : (room1 == room2) = false := by simp [hroom]
  have h4 : (room2 == room1) = false := by simp [Ne.symm hroom]
  constructor <;>
    simp [store, ensureGroup, dedupFirst, dedupFirstGo, upsertEvent, lookup, emptyEM,
      List.filter, List.find?, h1, h2, h3, h4]

open EventMap in
/-- Witness for C3 at concrete event and room ids. -/
theorem store_lookup_direction_independent_witness :
    lookup (store emptyEM "$src1" "!portal" "$tgt1" "!hub" none 5) "$src1" "!hub" =
        some "$tgt1" ∧
      lookup (store emptyEM "$src1" "!portal" "$tgt1" "!hub" none 5) "$tgt1" "!portal" =
        some "$src1" :=
  store_lookup_direction_independent "$src1" "$tgt1" "!portal" "!hub" 5
    (by decide) (by decide)

open EventMap in
/-- C4: `store(a, r1, b, r2)` then `store(b, r2, c, r3)` joins `c` into the
existing group of `a` and `b`, so `lookup(a, r3)` returns `c`. -/
theorem store_links_shared_event_transitively
    (a b c r1 r2 r3 : String) (t1 t2 : Int)
    (hab : a ≠ b) (hac : a ≠ c) (hbc : b ≠ c)
    (h12 : r1 ≠ r2) (h13 : r1 ≠ r3) (h23 : r2 ≠ r3) :
    lookup (store (store emptyEM a r1 b r2 none t1) b r2 c r3 none t2) a r3 =
      some c := by
  have e1 : (a == b) = false := by simp [hab]
  have e2 : (b == a) = false := by simp [Ne.symm hab]
  have e3 : (a == c) = false := by simp [hac]
  have e4 : (c == a) = false := by simp [Ne.symm hac]
  have e5 : (b == c) = false := by simp [hbc]
  have e6 : (c == b) = false := by simp [Ne.symm hbc]
  have f1 : (r1 == r2) = false := by simp [h12]
  have f2 : (r2 == r1) = false := by simp [Ne.symm h12]
  have f3 : (r1 == r3) = false := by simp [h13]
  have f4 : (r3 == r1) = false := by simp [Ne.symm h13]
  have f5 : (r2 == r3) = false := by simp [h23]
  have f6 : (r3 == r2) = false := by simp [Ne.symm h23]
  simp [store, ensureGroup, dedupFirst, dedupFirstGo, upsertEvent, mergeGroups,
    mergeOne, lookup, emptyEM, List.filter, List.find?,
    e1, e2, e3, e4, e5, e6, f1, f2, f3, f4, f5, f6]

open EventMap in
/-- Witness for C4 at concrete event and room ids. -/
theorem store_links_shared_event_transitively_witness :
    lookup (store (store emptyEM "$a" "!r1" "$b" "!r2" none 5) "$b" "!r2" "$c" "!r3"
        none 6) "$a" "!r3" = some "$c" :=
  store_links_shared_event_transitively "$a" "$b" "$c" "!r1" "!r2" "!r3" 5 6
    (by decide) (by decide) (by decide) (by decide) (by decide) (by decide)

open EventMap in
/-- C9 (failing part): when the third `store` merges the group of `b` with
the group of `c`, every member of the absorbed group is silently lost, not
moved: the copy runs as `INSERT OR IGNORE` while the absorbed group's row
still holds the same `event_id`, so the `UNIQUE (event_id)` constraint makes
the insert a no-op, and the subsequent delete drops the row.  Member
`("r4", "d")` collides with nothing in the surviving group, yet it vanishes:
only the two event ids named by the linking `store` call survive the merge. -/
theorem merge_drops_absorbed_group_members :
    lookup mergeScenario "a" "r3" = some "c" ∧
      lookup mergeScenario "a" "r4" = none ∧
      lookup mergeScenario "d" "r1" = none ∧
      mergeScenario.rows.all (fun r => !(r.event == "d")) = true := by decide

open EventMap in
/-- C8 (failing part): after `cleanup`, a lookup keyed on a younger surviving
member whose target-room member was older is not intact: it degrades from the
old event id to not-found.  Here `b` (timestamp 1000000) survives the cutoff
but its lookup toward room `r1` loses its result `a` (timestamp 1). -/
theorem cleanup_breaks_younger_member_lookup :
    lookup mixedAgeScenario "b" "r1" = some "a" ∧
      ¬ ((1000000 : Int) < 2592002 - 30 * 86400) ∧
      lookup (cleanup mixedAgeScenario 2592002 30).2 "b" "r1" = none := by decide

open EventMap in
/-- C8 (amended): `cleanup(max_age_days)` removes exactly the member rows
whose own timestamp is older than the cutoff, returns their count, then
removes exactly the groups left with no members; a lookup both of whose
member rows (the key member and the target-room member) are younger than the
cutoff is unchanged. -/
theorem cleanup_removes_exactly_old_members
    (s : EMState) (now maxAgeDays : Int) (hwf : wfEM s) :
    ((cleanup s now maxAgeDays).1 =
        (s.rows.filter (fun r => decide (r.ts < now - maxAgeDays * 86400))).length) ∧
      (∀ r, r ∈ (cleanup s now maxAgeDays).2.rows ↔
        r ∈ s.rows ∧ ¬ r.ts < now - maxAgeDays * 86400) ∧
      (∀ g, g ∈ (cleanup s now maxAgeDays).2.groups ↔
        g ∈ s.groups ∧ ∃ r ∈ (cleanup s now maxAgeDays).2.rows, r.gid = g.1) ∧
      (∀ e room x, lookup s e room = some x →
        (∀ r ∈ s.rows, r.event = e → ¬ r.ts < now - maxAgeDays * 86400) →
        (∀ r ∈ s.rows, r.event = x → ¬ r.ts < now - maxAgeDays * 86400) →
        lookup (cleanup s now maxAgeDays).2 e room = some x) := by
  refine ⟨rfl, ?_, ?_, ?_⟩
  · intro r
    simp [cleanup, List.mem_filter]
  · intro g
    simp [cleanup, List.mem_filter, List.any_eq_true]
    tauto
  · intro e room x hl hyoungE hyoungX
    unfold lookup at hl
    cases h1 : s.rows.find? (fun r => r.event == e) with
    | none => rw [h1] at hl; simp at hl
    | some r1 =>
      rw [h1] at hl
      dsimp only at hl
      cases h2 : s.rows.find? (fun r2 => r2.gid == r1.gid && r2.room == room) with
      | none => rw [h2] at hl; simp at hl
      | some r2 =>
        rw [h2] at hl
        dsimp only at hl
        have hx : r2.event = x := by injection hl
        have hr1mem : r1 ∈ s.rows := List.mem_of_find?_eq_some h1
        have hr1p : (r1.event == e) = true :=
          List.find?_some (p := fun r : EventRow => r.event == e) h1
        have hr1e : r1.event = e := by simpa using hr1p
        have hr2mem : r2 ∈ s.rows := List.mem_of_find?_eq_some h2
        have hr2p : (r2.gid == r1.gid && r2.room == room) = true :=
          List.find?_some (p := fun r2 : EventRow => r2.gid == r1.gid && r2.room == room) h2
        have uniq1 : ∀ y ∈ s.rows, (y.event == e) = true → y = r1 := by
          intro y hy hye
          have hye' : y.event = e := by simpa using hye
          exact List.inj_on_of_nodup_map hwf.1 hy hr1mem (by rw [hye', hr1e])
        have uniq2 : ∀ y ∈ s.rows,
            (y.gid == r1.gid && y.room == room) = true → y = r2 := by
          intro y hy hyp
          have h1y : y.gid = r1.gid ∧ y.room = room := by simpa using hyp
          have h2y : r2.gid = r1.gid ∧ r2.room = room := by simpa using hr2p
          exact List.inj_on_of_nodup_map hwf.2 hy hr2mem
            (by rw [h1y.1, h1y.2, h2y.1, h2y.2])
        have hq1 : (!decide (r1.ts < now - maxAgeDays * 86400)) = true := by
          simpa using hyoungE r1 hr1mem hr1e
        have hq2 : (!decide (r2.ts < now - maxAgeDays * 86400)) = true := by
          simpa using hyoungX r2 hr2mem hx
        have hf1 := find?_filter_stable (fun r => r.event == e)
          (fun r => !decide (r.ts < now - maxAgeDays * 86400)) s.rows r1 h1 hq1 uniq1
        have hf2 := find?_filter_stable (fun r2 => r2.gid == r1.gid && r2.room == room)
          (fun r => !decide (r.ts < now - maxAgeDays * 86400)) s.rows r2 h2 hq2 uniq2
        have hrows : (cleanup s now maxAgeDays).2.rows
            = s.rows.filter (fun r => !decide (r.ts < now - maxAgeDays * 86400)) := rfl
        unfold lookup
        rw [hrows, hf1]
        dsimp only
        rw [hf2]
        simpa using hx

open EventMap in
/-- Witness for the amended C8 at a concrete young store: nothing is removed
and a young-to-young lookup survives cleanup. -/
theorem cleanup_removes_exactly_old_members_witness :
    (cleanup (store emptyEM "a" "r1" "b" "r2" none 100) 50 30).1 = 0 ∧
      lookup (cleanup (store emptyEM "a" "r1" "b" "r2" none 100) 50 30).2 "a" "r2" =
        some "b" := by
  have h := cleanup_removes_exactly_old_members
    (store emptyEM "a" "r1" "b" "r2" none 100) 50 30 (by unfold wfEM; decide)
  refine ⟨?_, ?_⟩
  · rw [h.1]; decide
  · exact h.2.2.2 "a" "r2" "b" (by decide) (by decide) (by decide)

namespace Handler

/-- The event id returned by `_send_as_puppet` is exactly the send oracle's
outcome for the target room. -/
theorem sendAsPuppet_fst (cfg : Config) (o : Oracles) (pm : PMState)
    (em : Option EMState) (platform sender displayName : Str)
    (avatarUrl : Option Str) (roomId : String) (replyToSource : Option String)
    (targetRoomId : Option String) :
    (sendAsPuppet cfg o pm em platform sender displayName avatarUrl roomId
      replyToSource targetRoomId).1 = o.sendOk roomId := by
  unfold sendAsPuppet
  cases o.sendOk roomId with
  | none => rfl
  | some eid =>
    dsimp only
    cases hm : (match replyToSource, em, targetRoomId with
      | some rts, some m, some tr => EventMap.lookup m rts tr
      | _, _, _ => none : Option String) <;> simp [hm]

/-- `sentRooms` distributes over trace concatenation. -/
theorem sentRooms_append (l1 l2 : List TraceItem) :
    sentRooms (l1 ++ l2) = sentRooms l1 ++ sentRooms l2 := by
  simp [sentRooms]

/-- Puppet-management steps are not sends. -/
theorem sentRooms_puppetActs (acts : List PuppetAction) :
    sentRooms (acts.map TraceItem.puppetAct) = [] := by
  simp [sentRooms, List.filterMap_map]

/-- One `_send_as_puppet` call delivers to its room exactly when the send
oracle succeeds there. -/
theorem sendAsPuppet_sentRooms (cfg : Config) (o : Oracles) (pm : PMState)
    (em : Option EMState) (platform sender displayName : Str)
    (avatarUrl : Option Str) (roomId : String) (replyToSource : Option String)
    (targetRoomId : Option String) :
    sentRooms (sendAsPuppet cfg o pm em platform sender displayName avatarUrl roomId
      replyToSource targetRoomId).2.2 =
      (if (o.sendOk roomId).isSome then [roomId] else []) := by
  unfold sendAsPuppet
  cases o.sendOk roomId with
  | none =>
    simp [sentRooms, List.filterMap_cons, List.filterMap_append,
      sentRooms_puppetActs]
  | some eid =>
    dsimp only
    cases hm : (match replyToSource, em, targetRoomId with
      | some rts, some m, some tr => EventMap.lookup m rts tr
      | _, _, _ => none : Option String) <;>
      simp [hm, sentRooms, List.filterMap_cons, List.filterMap_append,
        sentRooms_puppetActs]

/-- The cross-relay loop never raises when `store` succeeds, and delivers to
exactly the non-source portals whose send succeeds. -/
theorem relayPortalLoop_spec (cfg : Config) (o : Oracles)
    (platform sender displayName : Str) (avatarUrl : Option Str)
    (replyTo : Option String) (sourceEventId sourceRoom : String)
    (hstore : ∀ r, o.storeOk r = true)
    (l : List (String × Str)) (pm : PMState) (em : Option EMState) :
    (relayPortalLoop cfg o platform sender displayName avatarUrl replyTo
        sourceEventId sourceRoom l pm em).err = false ∧
      sentRooms (relayPortalLoop cfg o platform sender displayName avatarUrl replyTo
        sourceEventId sourceRoom l pm em).trace =
        ((l.map (fun p => p.1)).filter (fun r => !(r == sourceRoom))).filter
          (fun r => (o.sendOk r).isSome) := by
  induction l generalizing pm em with
  | nil => simp [relayPortalLoop, sentRooms]
  | cons hd rest ih =>
    obtain ⟨portalId, label⟩ := hd
    by_cases hsrc : (portalId == sourceRoom) = true
    · simp only [relayPortalLoop, hsrc, if_true, List.map_cons, List.filter_cons,
        Bool.not_true]
      exact ih pm em
    · have hsrc' : (portalId == sourceRoom) = false := by
        simpa using hsrc
      have hr1 := sendAsPuppet_fst cfg o pm em platform sender displayName avatarUrl
        portalId replyTo (some portalId)
      have hrs := sendAsPuppet_sentRooms cfg o pm em platform sender displayName
        avatarUrl portalId replyTo (some portalId)
      cases hsend : o.sendOk portalId with
      | none =>
        rw [hsend] at hr1 hrs
        simp only [relayPortalLoop, hsrc', Bool.false_eq_true, if_false, hr1]
        cases em with
        | none =>
          obtain ⟨ih1, ih2⟩ := ih (sendAsPuppet cfg o pm none platform sender
            displayName avatarUrl portalId replyTo (some portalId)).2.1 none
          refine ⟨ih1, ?_⟩
          rw [sentRooms_append, hrs, ih2]
          simp [List.filter_cons, hsrc', hsend, List.filter_filter, Bool.and_comm]
        | some m =>
          obtain ⟨ih1, ih2⟩ := ih (sendAsPuppet cfg o pm (some m) platform sender
            displayName avatarUrl portalId replyTo (some portalId)).2.1 (some m)
          refine ⟨ih1, ?_⟩
          rw [sentRooms_append, hrs, ih2]
          simp [List.filter_cons, hsrc', hsend, List.filter_filter, Bool.and_comm]
      | some evt =>
        rw [hsend] at hr1 hrs
        simp only [relayPortalLoop, hsrc', Bool.false_eq_true, if_false, hr1]
        cases em with
        | none =>
          obtain ⟨ih1, ih2⟩ := ih (sendAsPuppet cfg o pm none platform sender
            displayName avatarUrl portalId replyTo (some portalId)).2.1 none
          refine ⟨ih1, ?_⟩
          rw [sentRooms_append, hrs, ih2]
          simp [List.filter_cons, hsrc', hsend, List.filter_filter, Bool.and_comm]
        | some m =>
          simp only [hstore portalId, if_true]
          obtain ⟨ih1, ih2⟩ := ih (sendAsPuppet cfg o pm (some m) platform sender
            displayName avatarUrl portalId replyTo (some portalId)).2.1
            (some (EventMap.store m sourceEventId sourceRoom evt portalId none o.now))
          refine ⟨ih1, ?_⟩
          rw [sentRooms_append, sentRooms_append, hrs, ih2]
          have hst : sentRooms [TraceItem.stored sourceEventId sourceRoom evt portalId]
              = [] := rfl
          rw [hst]
          simp [List.filter_cons, hsrc', hsend, List.filter_filter, Bool.and_comm]

/-- The hub fan-out loop never raises when `store` succeeds, and delivers to
exactly the portals whose send succeeds. -/
theorem relayHubLoop_spec (cfg : Config) (o : Oracles)
    (platform sender displayName : Str) (avatarUrl : Option Str)
    (replyTo : Option String) (sourceEventId sourceRoom : String)
    (hstore : ∀ r, o.storeOk r = true)
    (l : List (String × Str)) (pm : PMState) (em : Option EMState) :
    (relayHubLoop cfg o platform sender displayName avatarUrl replyTo
        sourceEventId sourceRoom l pm em).err = false ∧
      sentRooms (relayHubLoop cfg o platform sender displayName avatarUrl replyTo
        sourceEventId sourceRoom l pm em).trace =
        (l.map (fun p => p.1)).filter (fun r => (o.sendOk r).isSome) := by
  induction l generalizing pm em with
  | nil => simp [relayHubLoop, sentRooms]
  | cons hd rest ih =>
    obtain ⟨portalId, label⟩ := hd
    have hr1 := sendAsPuppet_fst cfg o pm em platform sender displayName avatarUrl
      portalId replyTo (some portalId)
    have hrs := sendAsPuppet_sentRooms cfg o pm em platform sender displayName
      avatarUrl portalId replyTo (some portalId)
    cases hsend : o.sendOk portalId with
    | none =>
      rw [hsend] at hr1 hrs
      simp only [relayHubLoop, hr1]
      cases em with
      | none =>
        obtain ⟨ih1, ih2⟩ := ih (sendAsPuppet cfg o pm none platform sender
          displayName avatarUrl portalId replyTo (some portalId)).2.1 none
        refine ⟨ih1, ?_⟩
        rw [sentRooms_append, hrs, ih2]
        simp [List.filter_cons, hsend]
      | some m =>
        obtain ⟨ih1, ih2⟩ := ih (sendAsPuppet cfg o pm (some m) platform sender
          displayName avatarUrl portalId replyTo (some portalId)).2.1 (some m)
        refine ⟨ih1, ?_⟩
        rw [sentRooms_append, hrs, ih2]
        simp [List.filter_cons, hsend]
    | some evt =>
      rw [hsend] at hr1 hrs
      simp only [relayHubLoop, hr1]
      cases em with
      | none =>
        obtain ⟨ih1, ih2⟩ := ih (sendAsPuppet cfg o pm none platform sender
          displayName avatarUrl portalId replyTo (some portalId)).2.1 none
        refine ⟨ih1, ?_⟩
        rw [sentRooms_append, hrs, ih2]
        simp [List.filter_cons, hsend]
      | some m =>
        simp only [hstore portalId, if_true]
        obtain ⟨ih1, ih2⟩ := ih (sendAsPuppet cfg o pm (some m) platform sender
          displayName avatarUrl portalId replyTo (some portalId)).2.1
          (some (EventMap.store m sourceEventId sourceRoom evt portalId none o.now))
        refine ⟨ih1, ?_⟩
        rw [sentRooms_append, sentRooms_append, hrs, ih2]
        have hst : sentRooms [TraceItem.stored sourceEventId sourceRoom evt portalId]
            = [] := rfl
        rw [hst]
        simp [List.filter_cons, hsend]

/-- `_relay_from_portal` never raises when `store` succeeds, and delivers to
exactly those of hub-then-other-portals whose send succeeds. -/
theorem relayFromPortal_spec (cfg : Config) (o : Oracles) (pm : PMState)
    (em : Option EMState) (ev : MessageEvent)
    (hstore : ∀ r, o.storeOk r = true) :
    (relayFromPortal cfg o pm em ev).err = false ∧
      sentRooms (relayFromPortal cfg o pm em ev).trace =
        (cfg.hubRoomId ::
          (cfg.portalRooms.map (fun p => p.1)).filter (fun r => !(r == ev.roomId))).filter
          (fun r => (o.sendOk r).isSome) := by
  unfold relayFromPortal
  have hr1 := sendAsPuppet_fst cfg o pm em
    (lowerStr ((List.lookup ev.roomId cfg.portalRooms).getD [])) ev.sender
    (getSenderProfile o ev.sender).1 (getSenderProfile o ev.sender).2 cfg.hubRoomId
    ev.replyTo (some cfg.hubRoomId)
  have hrs := sendAsPuppet_sentRooms cfg o pm em
    (lowerStr ((List.lookup ev.roomId cfg.portalRooms).getD [])) ev.sender
    (getSenderProfile o ev.sender).1 (getSenderProfile o ev.sender).2 cfg.hubRoomId
    ev.replyTo (some cfg.hubRoomId)
  cases hsend : o.sendOk cfg.hubRoomId with
  | none =>
    rw [hsend] at hr1 hrs
    simp only [hr1]
    cases em with
    | none =>
      obtain ⟨h1, h2⟩ := relayPortalLoop_spec cfg o
        (lowerStr ((List.lookup ev.roomId cfg.portalRooms).getD [])) ev.sender
        (getSenderProfile o ev.sender).1 (getSenderProfile o ev.sender).2 ev.replyTo
        ev.eventId ev.roomId hstore cfg.portalRooms _ none
      refine ⟨h1, ?_⟩
      rw [sentRooms_append, hrs, h2]
      simp [List.filter_cons, hsend, List.filter_filter, Bool.and_comm]
    | some m =>
      obtain ⟨h1, h2⟩ := relayPortalLoop_spec cfg o
        (lowerStr ((List.lookup ev.roomId cfg.portalRooms).getD [])) ev.sender
        (getSenderProfile o ev.sender).1 (getSenderProfile o ev.sender).2 ev.replyTo
        ev.eventId ev.roomId hstore cfg.portalRooms _ (some m)
      refine ⟨h1, ?_⟩
      rw [sentRooms_append, hrs, h2]
      simp [List.filter_cons, hsend, List.filter_filter, Bool.and_comm]
  | some evt =>
    rw [hsend] at hr1 hrs
    simp only [hr1]
    cases em with
    | none =>
      obtain ⟨h1, h2⟩ := relayPortalLoop_spec cfg o
        (lowerStr ((List.lookup ev.roomId cfg.portalRooms).getD [])) ev.sender
        (getSenderProfile o ev.sender).1 (getSenderProfile o ev.sender).2 ev.replyTo
        ev.eventId ev.roomId hstore cfg.portalRooms _ none
      refine ⟨h1, ?_⟩
      rw [sentRooms_append, hrs, h2]
      simp [List.filter_cons, hsend, List.filter_filter, Bool.and_comm]
    | some m =>
      simp only [hstore cfg.hubRoomId, if_true]
      obtain ⟨h1, h2⟩ := relayPortalLoop_spec cfg o
        (lowerStr ((List.lookup ev.roomId cfg.portalRooms).getD [])) ev.sender
        (getSenderProfile o ev.sender).1 (getSenderProfile o ev.sender).2 ev.replyTo
        ev.eventId ev.roomId hstore cfg.portalRooms _
        (some (EventMap.store m ev.eventId ev.roomId evt cfg.hubRoomId none o.now))
      refine ⟨h1, ?_⟩
      rw [sentRooms_append, sentRooms_append, hrs, h2]
      have hst : sentRooms [TraceItem.stored ev.eventId ev.roomId evt cfg.hubRoomId]
          = [] := rfl
      rw [hst]
      simp [List.filter_cons, hsend, List.filter_filter, Bool.and_comm]

/-- `_relay_from_hub` never raises when `store` succeeds, and delivers to
exactly the portals whose send succeeds. -/
theorem relayFromHub_spec (cfg : Config) (o : Oracles) (pm : PMState)
    (em : Option EMState) (ev : MessageEvent)
    (hstore : ∀ r, o.storeOk r = true) :
    (relayFromHub cfg o pm em ev).err = false ∧
      sentRooms (relayFromHub cfg o pm em ev).trace =
        (cfg.portalRooms.map (fun p => p.1)).filter (fun r => (o.sendOk r).isSome) := by
  unfold relayFromHub
  exact relayHubLoop_spec cfg o
    (lowerStr (LoopPrevention.platform_label ev.sender)) ev.sender
    (getSenderProfile o ev.sender).1 (getSenderProfile o ev.sender).2 ev.replyTo
    ev.eventId ev.roomId hstore cfg.portalRooms pm em

/-- `reactedRooms` distributes over trace concatenation. -/
theorem reactedRooms_append (l1 l2 : List TraceItem) :
    reactedRooms (l1 ++ l2) = reactedRooms l1 ++ reactedRooms l2 := by
  simp [reactedRooms]

/-- The reaction loop reacts in exactly the targets that have a correlation
and whose network call succeeds, skipping failures silently. -/
theorem reactLoop_spec (cfg : Config) (o : Oracles) (m : EMState)
    (platform sender displayName : Str) (avatarUrl : Option Str)
    (reactedTo : String) (targets : List String) (pm : PMState) :
    reactedRooms (reactLoop cfg o m platform sender displayName avatarUrl reactedTo
        targets pm).1 =
      targets.filter (fun t =>
        (EventMap.lookup m reactedTo t).isSome && (o.sendOk t).isSome) := by
  induction targets generalizing pm with
  | nil => simp [reactLoop, reactedRooms]
  | cons t rest ih =>
    cases hl : EventMap.lookup m reactedTo t with
    | none =>
      simp only [reactLoop, hl]
      rw [ih]
      simp [List.filter_cons, hl]
    | some mapped =>
      simp only [reactLoop, hl]
      cases hsend : (o.sendOk t).isSome with
      | false =>
        simp only [Bool.false_eq_true, if_false]
        rw [reactedRooms_append, reactedRooms_append]
        have h0 : reactedRooms (TraceItem.intentCall t false ::
            (getIntent cfg.domain pm platform sender displayName avatarUrl t).1.map
              TraceItem.puppetAct) = [] := by
          simp [reactedRooms, List.filterMap_cons, List.filterMap_map]
        rw [h0, ih]
        simp [List.filter_cons, hl, hsend, reactedRooms]
      | true =>
        simp only [if_true]
        rw [reactedRooms_append, reactedRooms_append]
        have h0 : reactedRooms (TraceItem.intentCall t false ::
            (getIntent cfg.domain pm platform sender displayName avatarUrl t).1.map
              TraceItem.puppetAct) = [] := by
          simp [reactedRooms, List.filterMap_cons, List.filterMap_map]
        rw [h0, ih]
        simp [List.filter_cons, hl, hsend, reactedRooms]

end Handler

open Handler LoopPrevention in
/-- Case analysis of `handle_message` and `handle_reaction` under arbitrary
per-room send outcomes, assuming the correlation store itself succeeds:
no exception propagates, and each room class receives exactly the sends
whose network call succeeds. -/
theorem relayOutcomeSpec
    (cfg : Config) (o : Oracles) (pm : PMState) (em : Option EMState)
    (ev : MessageEvent) (rev : ReactionEvent) (m : EMState)
    (hstore : ∀ r, o.storeOk r = true) :
    (handle_message cfg o pm em ev).err = false ∧
      ((cfg.portalRooms.map (fun p => p.1)).contains ev.roomId = true →
        should_ignore_in_portal ev.sender ev.body cfg.botMxid = false →
        sentRooms (handle_message cfg o pm em ev).trace =
          (cfg.hubRoomId :: (cfg.portalRooms.map (fun p => p.1)).filter
              (fun r => !(r == ev.roomId))).filter
            (fun r => (o.sendOk r).isSome)) ∧
      ((cfg.portalRooms.map (fun p => p.1)).contains ev.roomId = false →
        ev.roomId = cfg.hubRoomId →
        should_ignore_in_hub ev.sender ev.body cfg.botMxid = false →
        sentRooms (handle_message cfg o pm em ev).trace =
          (cfg.portalRooms.map (fun p => p.1)).filter
            (fun r => (o.sendOk r).isSome)) ∧
      ((cfg.portalRooms.map (fun p => p.1)).contains rev.roomId = true →
        should_ignore_in_portal rev.sender [] cfg.botMxid = false →
        reactedRooms (handle_reaction cfg o pm (some m) rev).1 =
          (cfg.hubRoomId :: (cfg.portalRooms.map (fun p => p.1)).filter
              (fun r => !(r == rev.roomId))).filter
            (fun t => (EventMap.lookup m rev.relatesToEventId t).isSome &&
              (o.sendOk t).isSome)) ∧
      ((cfg.portalRooms.map (fun p => p.1)).contains rev.roomId = false →
        rev.roomId = cfg.hubRoomId →
        should_ignore_in_hub rev.sender [] cfg.botMxid = false →
        reactedRooms (handle_reaction cfg o pm (some m) rev).1 =
          (cfg.portalRooms.map (fun p => p.1)).filter
            (fun t => (EventMap.lookup m rev.relatesToEventId t).isSome &&
              (o.sendOk t).isSome)) := by
  refine ⟨?_, ?_, ?_, ?_, ?_⟩
  · unfold handle_message
    by_cases hc : (cfg.portalRooms.map (fun p => p.1)).contains ev.roomId = true
    · simp only [hc, if_true]
      by_cases hig : should_ignore_in_portal ev.sender ev.body cfg.botMxid = true
      · simp [hig]
      · have hig' : should_ignore_in_portal ev.sender ev.body cfg.botMxid = false := by
          simpa using hig
        simp only [hig', Bool.false_eq_true, if_false]
        exact (relayFromPortal_spec cfg o pm em ev hstore).1
    · have hc' : (cfg.portalRooms.map (fun p => p.1)).contains ev.roomId = false := by
        simpa using hc
      simp only [hc', Bool.false_eq_true, if_false]
      by_cases hh : (ev.roomId == cfg.hubRoomId) = true
      · simp only [hh, if_true]
        by_cases hig : should_ignore_in_hub ev.sender ev.body cfg.botMxid = true
        · simp [hig]
        · have hig' : should_ignore_in_hub ev.sender ev.body cfg.botMxid = false := by
            simpa using hig
          simp only [hig', Bool.false_eq_true, if_false]
          exact (relayFromHub_spec cfg o pm em ev hstore).1
      · have hh' : (ev.roomId == cfg.hubRoomId) = false := by simpa using hh
        simp [hh']
  · intro hc hig
    unfold handle_message
    simp only [hc, if_true, hig, Bool.false_eq_true, if_false]
    exact (relayFromPortal_spec cfg o pm em ev hstore).2
  · intro hc hh hig
    have hbeq : (ev.roomId == cfg.hubRoomId) = true := by simp [hh]
    unfold handle_message
    simp only [hc, Bool.false_eq_true, if_false, hbeq, if_true, hig]
    exact (relayFromHub_spec cfg o pm em ev hstore).2
  · intro hc hig
    unfold handle_reaction
    simp only [hc, if_true, hig, Bool.false_eq_true, if_false]
    exact reactLoop_spec cfg o m _ rev.sender _ _ rev.relatesToEventId _ pm
  · intro hc hh hig
    have hbeq : (rev.roomId == cfg.hubRoomId) = true := by simp [hh]
    unfold handle_reaction
    simp only [hc, Bool.false_eq_true, if_false, hbeq, if_true, hig]
    exact reactLoop_spec cfg o m _ rev.sender _ _ rev.relatesToEventId _ pm

open Handler LoopPrevention in
/-- C6: per-target send failures are contained — with a working correlation
store, `handle_message` never propagates an exception, every target whose own
send succeeds still receives its copy regardless of other targets' failures,
and `handle_reaction` likewise reacts in every target that has a mapping and
a working network path, skipping failing targets. -/
theorem send_failures_are_contained
    (cfg : Config) (o : Oracles) (pm : PMState) (em : Option EMState)
    (ev : MessageEvent) (rev : ReactionEvent) (m : EMState)
    (hstore : ∀ r, o.storeOk r = true) :
    (handle_message cfg o pm em ev).err = false ∧
      ((cfg.portalRooms.map (fun p => p.1)).contains ev.roomId = true →
        should_ignore_in_portal ev.sender ev.body cfg.botMxid = false →
        sentRooms (handle_message cfg o pm em ev).trace =
          (cfg.hubRoomId :: (cfg.portalRooms.map (fun p => p.1)).filter
              (fun r => !(r == ev.roomId))).filter
            (fun r => (o.sendOk r).isSome)) ∧
      ((cfg.portalRooms.map (fun p => p.1)).contains ev.roomId = false →
        ev.roomId = cfg.hubRoomId →
        should_ignore_in_hub ev.sender ev.body cfg.botMxid = false →
        sentRooms (handle_message cfg o pm em ev).trace =
          (cfg.portalRooms.map (fun p => p.1)).filter
            (fun r => (o.sendOk r).isSome)) ∧
      ((cfg.portalRooms.map (fun p => p.1)).contains rev.roomId = true →
        should_ignore_in_portal rev.sender [] cfg.botMxid = false →
        reactedRooms (handle_reaction cfg o pm (some m) rev).1 =
          (cfg.hubRoomId :: (cfg.portalRooms.map (fun p => p.1)).filter
              (fun r => !(r == rev.roomId))).filter
            (fun t => (EventMap.lookup m rev.relatesToEventId t).isSome &&
              (o.sendOk t).isSome)) ∧
      ((cfg.portalRooms.map (fun p => p.1)).contains rev.roomId = false →
        rev.roomId = cfg.hubRoomId →
        should_ignore_in_hub rev.sender [] cfg.botMxid = false →
        reactedRooms (handle_reaction cfg o pm (some m) rev).1 =
          (cfg.portalRooms.map (fun p => p.1)).filter
            (fun t => (EventMap.lookup m rev.relatesToEventId t).isSome &&
              (o.sendOk t).isSome)) :=
  relayOutcomeSpec cfg o pm em ev rev m hstore

open Handler Scenario in
/-- Witness for C6: scenario D — three fan-out targets, the WhatsApp send
raises, the hub and Telegram targets still receive their copies and
`handle_message` returns without raising. -/
theorem send_failures_are_contained_witness :
    (handle_message relayConfig sendWaFails pmEmpty (some EventMap.emptyEM)
        signalEvent).err = false ∧
      sentRooms (handle_message relayConfig sendWaFails pmEmpty
        (some EventMap.emptyEM) signalEvent).trace = ["!hub", "!tel"] := by
  have h := send_failures_are_contained relayConfig sendWaFails pmEmpty
    (some EventMap.emptyEM) signalEvent whatsappReaction EventMap.emptyEM
    (fun _ => rfl)
  exact ⟨h.1, (h.2.1 (by decide) (by decide)).trans (by decide)⟩

open Handler LoopPrevention in
/-- C2: with every network call succeeding, a non-ignored message is sent
exactly once per target room — from a portal to the hub plus every other
portal (never the source portal), from the hub to every portal (never the hub
itself), and from an unrelated room nowhere. -/
theorem handle_message_fanout_exact
    (cfg : Config) (o : Oracles) (pm : PMState) (em : Option EMState)
    (ev : MessageEvent)
    (hnodup : (cfg.portalRooms.map (fun p => p.1)).Nodup)
    (hhub : cfg.hubRoomId ∉ cfg.portalRooms.map (fun p => p.1))
    (hsend : ∀ r, (o.sendOk r).isSome = true)
    (hstore : ∀ r, o.storeOk r = true) :
    (handle_message cfg o pm em ev).err = false ∧
      ((cfg.portalRooms.map (fun p => p.1)).contains ev.roomId = true →
        should_ignore_in_portal ev.sender ev.body cfg.botMxid = false →
        sentRooms (handle_message cfg o pm em ev).trace =
          cfg.hubRoomId :: (cfg.portalRooms.map (fun p => p.1)).filter
            (fun r => !(r == ev.roomId)) ∧
        (sentRooms (handle_message cfg o pm em ev).trace).Nodup ∧
        ev.roomId ∉ sentRooms (handle_message cfg o pm em ev).trace) ∧
      ((cfg.portalRooms.map (fun p => p.1)).contains ev.roomId = false →
        ev.roomId = cfg.hubRoomId →
        should_ignore_in_hub ev.sender ev.body cfg.botMxid = false →
        sentRooms (handle_message cfg o pm em ev).trace =
          cfg.portalRooms.map (fun p => p.1) ∧
        (sentRooms (handle_message cfg o pm em ev).trace).Nodup ∧
        cfg.hubRoomId ∉ sentRooms (handle_message cfg o pm em ev).trace) ∧
      ((cfg.portalRooms.map (fun p => p.1)).contains ev.roomId = false →
        ev.roomId ≠ cfg.hubRoomId →
        sentRooms (handle_message cfg o pm em ev).trace = []) := by
  have hbase := relayOutcomeSpec cfg o pm em ev
    ⟨ev.sender, ev.roomId, ev.eventId, ev.eventId, []⟩ EventMap.emptyEM hstore
  refine ⟨hbase.1, ?_, ?_, ?_⟩
  · intro hc hig
    have hs := hbase.2.1 hc hig
    have hcollapse : (cfg.hubRoomId :: (cfg.portalRooms.map (fun p => p.1)).filter
        (fun r => !(r == ev.roomId))).filter (fun r => (o.sendOk r).isSome) =
        cfg.hubRoomId :: (cfg.portalRooms.map (fun p => p.1)).filter
          (fun r => !(r == ev.roomId)) :=
      List.filter_eq_self.mpr (fun a _ => hsend a)
    rw [hcollapse] at hs
    have hmem : ev.roomId ∈ cfg.portalRooms.map (fun p => p.1) := by
      simpa using hc
    have hne : ev.roomId ≠ cfg.hubRoomId := fun h => hhub (h ▸ hmem)
    refine ⟨hs, ?_, ?_⟩
    · rw [hs]
      refine List.Nodup.cons ?_ (hnodup.filter _)
      intro hmemf
      exact hhub (List.mem_of_mem_filter hmemf)
    · rw [hs]
      intro hmemf
      rcases List.mem_cons.mp hmemf with h | h
      · exact hne h
      · have := List.of_mem_filter h
        simp at this
  · intro hc hh hig
    have hs := hbase.2.2.1 hc hh hig
    have hcollapse : (cfg.portalRooms.map (fun p => p.1)).filter
        (fun r => (o.sendOk r).isSome) = cfg.portalRooms.map (fun p => p.1) :=
      List.filter_eq_self.mpr (fun a _ => hsend a)
    rw [hcollapse] at hs
    exact ⟨hs, hs ▸ hnodup, hs ▸ hhub⟩
  · intro hc hh
    have hh' : (ev.roomId == cfg.hubRoomId) = false := by simpa using hh
    unfold handle_message
    rw [hc, hh']
    simp [sentRooms]

open Handler Scenario in
/-- Witness for C2: scenario C — a Signal-portal message with three
configured portals produces exactly the sends hub, WhatsApp, Telegram, and
never Signal. -/
theorem handle_message_fanout_exact_witness :
    (handle_message relayConfig sendAllOk pmEmpty (some EventMap.emptyEM)
        signalEvent).err = false ∧
      sentRooms (handle_message relayConfig sendAllOk pmEmpty
        (some EventMap.emptyEM) signalEvent).trace = ["!hub", "!wa", "!tel"] := by
  have h := handle_message_fanout_exact relayConfig sendAllOk pmEmpty
    (some EventMap.emptyEM) signalEvent (by decide) (by decide)
    (fun _ => rfl) (fun _ => rfl)
  exact ⟨h.1, ((h.2.1 (by decide) (by decide)).1).trans (by decide)⟩

open Handler Scenario in
/-- C7 (failing): the `store` calls of `_relay_from_portal` are outside any
`try`, so a correlation-store failure after the successful hub send
propagates out of `handle_message` and the remaining portal targets receive
nothing: only the hub got its copy and the error flag is raised. -/
theorem store_failure_aborts_remaining_targets :
    (handle_message relayConfig storeHubFails pmEmpty (some EventMap.emptyEM)
        signalEvent).err = true ∧
      sentRooms (handle_message relayConfig storeHubFails pmEmpty
        (some EventMap.emptyEM) signalEvent).trace = ["!hub"] := by decide

set_option maxRecDepth 100000 in
open Handler Scenario in
/-- C5 (failing): `_send_as_puppet` calls `get_intent` without
`sync_member_state`, which therefore defaults to `False` for every target —
the hub included.  With the Signal puppet's hub member profile stale
(`"Old"` cached, `"New"` current), relaying a portal message issues no
member state event in the hub, performs only the idempotent `ensure_joined`,
and leaves the recorded hub member profile stale. -/
theorem hub_target_uses_passive_sync :
    (staleHubTrace.contains (TraceItem.intentCall "!hub" false) = true) ∧
      (staleHubTrace.all noHubMemberEvent = true) ∧
      (staleHubTrace.contains
          (TraceItem.puppetAct (PuppetAction.ensureJoined signalPuppetMxid "!hub"))
        = true) ∧
      (List.lookup (signalPuppetMxid, "!hub")
          (handle_message relayConfig newNameOracles stalePuppetState
            (some EventMap.emptyEM) signalEvent).pm.memberProfiles
        = some ("Old".toList, none)) :=
  ⟨by decide, by decide, by decide, by decide⟩
